import Mathlib

/-!
Shallow embedding of the presenter-side session orchestration core of
`src/components/ScreenSharePresenter.tsx` (a React component built on PeerJS).

The component's mutable refs and React state are collected into a single
`PresenterState` record; each event handler and callback of the source is
translated into a state-transition function of the same name.  JavaScript
`Map`s become association lists (`Map.set` replaces in place or appends at the
end, `Map.delete` removes the entry, exactly as the JS semantics under unique
keys); JavaScript `Set`s become duplicate-free lists in insertion order.
Externally visible effects that the claims talk about (messages sent over data
connections, `peer.call` invocations, `call.close()` invocations,
`connection.close()` invocations, scheduled timers) are recorded in append-only
logs inside the state.
-/

/-- Presenter session status, from `type PresenterStatus` in the source. -/
inductive PresenterStatus where
  | connecting
  | ready
  | sharing
  | error
deriving DecidableEq, Repr

/-- Tags of data-channel messages (`DataMessage.type` in the source). -/
inductive MsgType where
  | meetingEnded
  | viewerMuted
  | viewerUnmuted
deriving DecidableEq, Repr

/-- A data-channel control message (`interface DataMessage`). -/
structure DataMessage where
  type : MsgType
  viewerId : Option String
deriving DecidableEq, Repr

/-- Kind of a viewer activity event (`ViewerActivity.type`). -/
inductive ActKind where
  | join
  | leave
deriving DecidableEq, Repr

/-- A join/leave activity event (`interface ViewerActivity`). -/
structure ViewerActivity where
  kind : ActKind
  viewerId : String
  timestamp : Nat
deriving DecidableEq, Repr

/-- Per-viewer registry record (`interface ViewerInfo`): the data connection is
reduced to its `open` flag; `isMutedByPresenter` is kept verbatim. -/
structure ViewerInfo where
  connOpen : Bool
  isMutedByPresenter : Bool
deriving DecidableEq, Repr

/-- The outbound stream built in `startSharing`: the video track is always
present (its absence aborts the operation); the microphone track is optional. -/
structure OutboundStream where
  hasAudio : Bool
deriving DecidableEq, Repr

/-- `Map.get`: value of the first entry with the given key. -/
def mapGet {α : Type} (k : String) : List (String × α) → Option α
  | [] => none
  | p :: rest => if p.1 = k then some p.2 else mapGet k rest

/-- `Map.set`: replace the existing entry in place, else append at the end
(JS `Map` insertion-order semantics). -/
def mapSet {α : Type} (k : String) (v : α) : List (String × α) → List (String × α)
  | [] => [(k, v)]
  | p :: rest => if p.1 = k then (k, v) :: rest else p :: mapSet k v rest

/-- `Map.delete`: drop the entry with the given key. -/
def mapDelete {α : Type} (k : String) (l : List (String × α)) : List (String × α) :=
  l.filter (fun p => p.1 ≠ k)

/-- `new Set([...prev, x])`: keep insertion order, append if absent. -/
def setInsert (x : String) (l : List String) : List String :=
  if x ∈ l then l else l ++ [x]

/-- `Set.delete`. -/
def setDelete (x : String) (l : List String) : List String :=
  l.filter (fun y => y ≠ x)

/-- The whole mutable state of one presenter instance: every `useState` and
`useRef` of the component, plus append-only logs of external effects. -/
structure PresenterState where
  /-- `isSharing` state. -/
  isSharing : Bool
  /-- `viewerCount` state. -/
  viewerCount : Nat
  /-- `status` state. -/
  status : PresenterStatus
  /-- `error` state (the user-visible error string). -/
  errMsg : Option String
  /-- `isMicOn` state. -/
  isMicOn : Bool
  /-- `recentActivity` state. -/
  recentActivity : List ViewerActivity
  /-- `mutedViewers` state (a JS `Set`, as an insertion-ordered list). -/
  mutedViewers : List String
  /-- `isViewerAudioEnabled` state. -/
  isViewerAudioEnabled : Bool
  /-- `viewerConnections` ref: viewer id → registry record. -/
  viewerConnections : List (String × ViewerInfo)
  /-- `viewerMediaCalls` ref: ids of viewers holding an outbound media-call
  handle (the `MediaConnection` values carry no further state we need). -/
  viewerMediaCalls : List String
  /-- `viewerAudioStreams` ref: viewer id → inbound audio stream identifier. -/
  viewerAudioStreams : List (String × String)
  /-- `streamRef` ref: the current outbound stream. -/
  streamRef : Option OutboundStream
  /-- `audioTrackRef` ref: the microphone track, reduced to its `enabled`
  flag. -/
  audioTrackRef : Option Bool
  /-- Whether `audioContextRef` holds a non-closed `AudioContext`. -/
  audioContextOpen : Bool
  /-- `viewerAudioRef.srcObject`: the stream ids summed into the playback sink
  at the last mix rebuild (`none` before any rebuild). -/
  mixOutput : Option (List String)
  /-- Number of `updateViewerAudioMix` executions (mix rebuilds). -/
  rebuildCount : Nat
  /-- `videoRef.srcObject` (the preview). -/
  preview : Option OutboundStream
  /-- Log of `connection.send` effects: (viewer id, message). -/
  sentMessages : List (String × DataMessage)
  /-- Log of `peer.call(viewerId, stream)` invocations: media-link attempts. -/
  mediaCallAttempts : List String
  /-- Log of `call.close()` invocations on outbound media calls. -/
  closedMediaCalls : List String
  /-- Log of `connection.close()` invocations on viewer data connections. -/
  closedControlLinks : List String
  /-- Log of scheduled activity-removal timers: (fire time, timestamp key). -/
  scheduledRemovals : List (Nat × Nat)
deriving DecidableEq, Repr

/-- The state right after mount: initial values of every `useState`/`useRef`. -/
def initialPresenterState : PresenterState where
  isSharing := false
  viewerCount := 0
  status := PresenterStatus.connecting
  errMsg := none
  isMicOn := true
  recentActivity := []
  mutedViewers := []
  isViewerAudioEnabled := false
  viewerConnections := []
  viewerMediaCalls := []
  viewerAudioStreams := []
  streamRef := none
  audioTrackRef := none
  audioContextOpen := false
  mixOutput := none
  rebuildCount := 0
  preview := none
  sentMessages := []
  mediaCallAttempts := []
  closedMediaCalls := []
  closedControlLinks := []
  scheduledRemovals := []

/-- `viewerId.split('-').pop() || viewerId` — the shortened id stored in an
activity event. -/
def shortViewerId (viewerId : String) : String :=
  match (viewerId.splitOn "-").getLast? with
  | some last => if last = "" then viewerId else last
  | none => viewerId

/-- The `setTimeout` delay of `addViewerActivity`, in milliseconds. -/
def activityDelayMs : Nat := 5000

/-- `addViewerActivity(type, viewerId)`: append the event, keep the last 5
(`prev.slice(-4)` then append), and schedule its removal `activityDelayMs`
after `now` (the timer's filter is keyed by the event's timestamp). -/
def addViewerActivity (kind : ActKind) (viewerId : String) (now : Nat)
    (s : PresenterState) : PresenterState :=
  let activity : ViewerActivity :=
    { kind := kind, viewerId := shortViewerId viewerId, timestamp := now }
  { s with
    recentActivity :=
      s.recentActivity.drop (s.recentActivity.length - 4) ++ [activity]
    scheduledRemovals := s.scheduledRemovals ++ [(now + activityDelayMs, now)] }

/-- The body of the `setTimeout` callback in `addViewerActivity`: drop every
activity event whose timestamp equals the captured one. -/
def expireActivity (key : Nat) (s : PresenterState) : PresenterState :=
  { s with recentActivity := s.recentActivity.filter (fun a => a.timestamp ≠ key) }

/-- `sendToViewer(viewerId, message)`: send only when the viewer is registered
and its data connection is open; otherwise silently do nothing. -/
def sendToViewer (viewerId : String) (message : DataMessage)
    (s : PresenterState) : PresenterState :=
  match mapGet viewerId s.viewerConnections with
  | some info =>
      if info.connOpen then
        { s with sentMessages := s.sentMessages ++ [(viewerId, message)] }
      else s
  | none => s

/-- `broadcastToViewers(message)`: send to every registered viewer whose data
connection is open, in registry iteration order. -/
def broadcastToViewers (message : DataMessage) (s : PresenterState) : PresenterState :=
  { s with
    sentMessages := s.sentMessages ++
      (s.viewerConnections.filter (fun p => p.2.connOpen)).map
        (fun p => (p.1, message)) }

/-- In-place mutation `viewerInfo.isMutedByPresenter = b` on the record fetched
from the registry map. -/
def setMuteFlag (viewerId : String) (b : Bool)
    (l : List (String × ViewerInfo)) : List (String × ViewerInfo) :=
  l.map (fun p =>
    if p.1 = viewerId then (p.1, { p.2 with isMutedByPresenter := b }) else p)

/-- `muteViewer(viewerId)`. -/
def muteViewer (viewerId : String) (s : PresenterState) : PresenterState :=
  let s1 := sendToViewer viewerId
    { type := MsgType.viewerMuted, viewerId := some viewerId } s
  { s1 with
    viewerConnections := setMuteFlag viewerId true s1.viewerConnections
    mutedViewers := setInsert viewerId s1.mutedViewers }

/-- `unmuteViewer(viewerId)`. -/
def unmuteViewer (viewerId : String) (s : PresenterState) : PresenterState :=
  let s1 := sendToViewer viewerId
    { type := MsgType.viewerUnmuted, viewerId := some viewerId } s
  { s1 with
    viewerConnections := setMuteFlag viewerId false s1.viewerConnections
    mutedViewers := setDelete viewerId s1.mutedViewers }

/-- `callViewer(viewerId, stream)`: one `peer.call` invocation (a media-link
attempt), whose handle is stored in `viewerMediaCalls`. -/
def callViewer (viewerId : String) (_stream : OutboundStream)
    (s : PresenterState) : PresenterState :=
  { s with
    mediaCallAttempts := s.mediaCallAttempts ++ [viewerId]
    viewerMediaCalls := setInsert viewerId s.viewerMediaCalls }

/-- The `call.on('close')` / `call.on('error')` handlers installed by
`callViewer`: drop the stored handle. -/
def handleMediaCallGone (viewerId : String) (s : PresenterState) : PresenterState :=
  { s with viewerMediaCalls := setDelete viewerId s.viewerMediaCalls }

/-- `updateViewerAudioMix()`: reopen the audio context if needed, build a fresh
destination, connect a source for every stream currently in
`viewerAudioStreams`, and publish the resulting stream to the playback sink. -/
def updateViewerAudioMix (s : PresenterState) : PresenterState :=
  { s with
    audioContextOpen := true
    mixOutput := some (s.viewerAudioStreams.map Prod.snd)
    rebuildCount := s.rebuildCount + 1 }

/-- `call.on('stream')` inside `handleCall`: record the viewer's inbound audio
stream and rebuild the mix. -/
def handleCallStream (viewerId streamId : String) (s : PresenterState) : PresenterState :=
  updateViewerAudioMix
    { s with viewerAudioStreams := mapSet viewerId streamId s.viewerAudioStreams }

/-- `call.on('close')` inside `handleCall`: remove the viewer's inbound audio
stream and rebuild the mix. -/
def handleCallClose (viewerId : String) (s : PresenterState) : PresenterState :=
  updateViewerAudioMix
    { s with viewerAudioStreams := mapDelete viewerId s.viewerAudioStreams }

/-- `conn.on('open')` inside `handleDataConnection`: register the viewer with
`isMutedByPresenter=false`, publish the registry size as the viewer count, emit
a `join` activity, and — when a stream exists and sharing is active — call the
new viewer immediately. -/
def handleConnOpen (viewerId : String) (now : Nat) (s : PresenterState) : PresenterState :=
  let s1 := { s with
    viewerConnections :=
      mapSet viewerId { connOpen := true, isMutedByPresenter := false }
        s.viewerConnections }
  let s2 := { s1 with viewerCount := s1.viewerConnections.length }
  let s3 := addViewerActivity ActKind.join viewerId now s2
  match s3.streamRef with
  | some st => if s3.isSharing then callViewer viewerId st s3 else s3
  | none => s3

/-- `conn.on('close')` inside `handleDataConnection`: delete the registry
record, the media-call handle and the audio-stream entry, clear the mute flag,
publish the new registry size, and emit a `leave` activity. -/
def handleConnClose (viewerId : String) (now : Nat) (s : PresenterState) : PresenterState :=
  let s1 := { s with
    viewerConnections := mapDelete viewerId s.viewerConnections
    viewerMediaCalls := setDelete viewerId s.viewerMediaCalls
    viewerAudioStreams := mapDelete viewerId s.viewerAudioStreams
    mutedViewers := setDelete viewerId s.mutedViewers }
  let s2 := { s1 with viewerCount := s1.viewerConnections.length }
  addViewerActivity ActKind.leave viewerId now s2

/-- `conn.on('error')` inside `handleDataConnection`: same deletions as the
close handler, but no activity event is emitted. -/
def handleConnError (viewerId : String) (s : PresenterState) : PresenterState :=
  let s1 := { s with
    viewerConnections := mapDelete viewerId s.viewerConnections
    viewerMediaCalls := setDelete viewerId s.viewerMediaCalls
    viewerAudioStreams := mapDelete viewerId s.viewerAudioStreams
    mutedViewers := setDelete viewerId s.mutedViewers }
  { s1 with viewerCount := s1.viewerConnections.length }

/-- `endMeeting()`: broadcast `meeting-ended`, stop the outbound tracks, close
and clear every media call and every data connection, clear the audio streams,
close the audio context, clear the preview, and reset the React state. -/
def endMeeting (s : PresenterState) : PresenterState :=
  let s1 := broadcastToViewers { type := MsgType.meetingEnded, viewerId := none } s
  { s1 with
    streamRef := none
    audioTrackRef := none
    closedMediaCalls := s1.closedMediaCalls ++ s1.viewerMediaCalls
    viewerMediaCalls := []
    closedControlLinks := s1.closedControlLinks ++ s1.viewerConnections.map Prod.fst
    viewerConnections := []
    viewerAudioStreams := []
    audioContextOpen := false
    preview := none
    isSharing := false
    viewerCount := 0
    mutedViewers := []
    isViewerAudioEnabled := false
    status := PresenterStatus.ready }

/-- `startSharing()`.  The two fallible asynchronous acquisitions are passed in
as outcomes: `videoGranted` is whether `getDisplayMedia` succeeded **and**
yielded a video track (its denial or the track's absence both throw into the
outer catch), `micGranted` is whether `getUserMedia` succeeded (its denial is
caught by the inner catch and only warns).  On success the combined stream is
built, sharing state is entered, and every currently registered viewer is
called; on video failure only the error string is set. -/
def startSharing (videoGranted micGranted : Bool) (s : PresenterState) : PresenterState :=
  if videoGranted then
    let audioTrackRef' := if micGranted then some s.isMicOn else s.audioTrackRef
    let outboundStream : OutboundStream := { hasAudio := micGranted }
    let s1 := { s with
      audioTrackRef := audioTrackRef'
      streamRef := some outboundStream
      isSharing := true
      status := PresenterStatus.sharing
      preview := some outboundStream }
    s1.viewerConnections.foldl (fun st p => callViewer p.1 outboundStream st) s1
  else
    { s with errMsg := some "Failed to start screen sharing. Please allow screen access." }

/-- `stopSharing()`: stop the outbound tracks, close and clear every media
call, clear the preview, exit sharing, and return to `ready` unless the status
is `error`. -/
def stopSharing (s : PresenterState) : PresenterState :=
  { s with
    streamRef := none
    audioTrackRef := none
    closedMediaCalls := s.closedMediaCalls ++ s.viewerMediaCalls
    viewerMediaCalls := []
    preview := none
    isSharing := false
    status := if s.status ≠ PresenterStatus.error then PresenterStatus.ready else s.status }

/-- The `videoTrack.onended` handler installed by `startSharing` (the browser's
own "stop sharing" affordance) just invokes `stopSharing`. -/
def handleVideoTrackEnded (s : PresenterState) : PresenterState :=
  stopSharing s

/-- The registry-mutating transport events of the data-connection lifecycle. -/
inductive RegistryEvent where
  | connOpen (viewerId : String) (now : Nat)
  | connClose (viewerId : String) (now : Nat)
  | connError (viewerId : String)
deriving DecidableEq, Repr

/-- Dispatch one registry event to its handler. -/
def stepRegistry (e : RegistryEvent) (s : PresenterState) : PresenterState :=
  match e with
  | RegistryEvent.connOpen id now => handleConnOpen id now s
  | RegistryEvent.connClose id now => handleConnClose id now s
  | RegistryEvent.connError id => handleConnError id s

/-- Process a sequence of registry events in order. -/
def runRegistry (es : List RegistryEvent) (s : PresenterState) : PresenterState :=
  es.foldl (fun st e => stepRegistry e st) s

/-- Viewer-side state relevant to the control protocol, from
`src/components/ScreenShareViewer.tsx`: the status reduced to whether
`meeting-ended` was received, the presenter-mute flag, the microphone stream's
presence, the two local mic flags, and the mic audio track's `enabled` flag. -/
structure ViewerSideState where
  statusEnded : Bool
  isMutedByPresenter : Bool
  hasMicStream : Bool
  isMicEnabled : Bool
  isMicMuted : Bool
  audioTrackEnabled : Bool
deriving DecidableEq, Repr

/-- The viewer's `conn.on('data')` handler: `meeting-ended` terminates and
releases local media; `viewer-muted` sets the presenter-mute flag and disables
the outbound audio track; `viewer-unmuted` clears the flag and re-enables the
track only if the mic is on and not locally muted. -/
def applyDataMessage (m : DataMessage) (v : ViewerSideState) : ViewerSideState :=
  match m.type with
  | MsgType.meetingEnded => { v with statusEnded := true, hasMicStream := false }
  | MsgType.viewerMuted =>
      { v with
        isMutedByPresenter := true
        audioTrackEnabled := if v.hasMicStream then false else v.audioTrackEnabled }
  | MsgType.viewerUnmuted =>
      { v with
        isMutedByPresenter := false
        audioTrackEnabled :=
          if v.hasMicStream && v.isMicEnabled && !v.isMicMuted then true
          else v.audioTrackEnabled }

/-- All messages the presenter's send log delivered to one viewer, in order. -/
def messagesFor (viewerId : String) (log : List (String × DataMessage)) : List DataMessage :=
  (log.filter (fun p => p.1 = viewerId)).map Prod.snd

/-- The viewer state after consuming a list of messages in order. -/
def applyAllMessages (ms : List DataMessage) (v : ViewerSideState) : ViewerSideState :=
  ms.foldl (fun acc m => applyDataMessage m acc) v

/-- A concrete viewer id of the documented identity scheme. -/
def exViewerId : String := "viewer-room1-abc"

/-- A second concrete viewer id. -/
def exViewerId2 : String := "viewer-room1-xyz"

/-- A concrete inbound audio stream identifier. -/
def exStreamId : String := "stream-abc"

/-- A concrete state: sharing is active and one viewer is registered with an
open control link, an outbound media call, and a contributing inbound audio
stream already mixed. -/
def exState : PresenterState :=
  { initialPresenterState with
    status := PresenterStatus.sharing
    isSharing := true
    streamRef := some { hasAudio := true }
    viewerConnections := [(exViewerId, { connOpen := true, isMutedByPresenter := false })]
    viewerCount := 1
    viewerMediaCalls := [exViewerId]
    viewerAudioStreams := [(exViewerId, exStreamId)]
    audioContextOpen := true
    mixOutput := some [exStreamId]
    rebuildCount := 1 }

/-- A concrete state: ready, two viewers registered with open control links,
no sharing yet. -/
def exTwoViewers : PresenterState :=
  { initialPresenterState with
    status := PresenterStatus.ready
    viewerConnections :=
      [(exViewerId, { connOpen := true, isMutedByPresenter := false }),
       (exViewerId2, { connOpen := true, isMutedByPresenter := false })]
    viewerCount := 2 }

/-! ## Helper lemmas -/

lemma addViewerActivity_frame (kind : ActKind) (id : String) (now : Nat)
    (s : PresenterState) :
    (addViewerActivity kind id now s).viewerConnections = s.viewerConnections ∧
    (addViewerActivity kind id now s).viewerCount = s.viewerCount ∧
    (addViewerActivity kind id now s).streamRef = s.streamRef ∧
    (addViewerActivity kind id now s).isSharing = s.isSharing := by
  simp [addViewerActivity]

lemma callViewer_frame (id : String) (st : OutboundStream) (s : PresenterState) :
    (callViewer id st s).viewerConnections = s.viewerConnections ∧
    (callViewer id st s).viewerCount = s.viewerCount := by
  simp [callViewer]

lemma stepRegistry_inv (e : RegistryEvent) (s : PresenterState) :
    (stepRegistry e s).viewerConnections.length = (stepRegistry e s).viewerCount := by
  cases e with
  | connOpen id now =>
      simp only [stepRegistry, handleConnOpen]
      split
      · split
        · simp [callViewer, addViewerActivity]
        · simp [addViewerActivity]
      · simp [addViewerActivity]
  | connClose id now =>
      simp [stepRegistry, handleConnClose, addViewerActivity]
  | connError id =>
      simp [stepRegistry, handleConnError]

/-! ## Claim theorems -/

/-- C1: after every processed viewer event (control-link open, close, or
error), the size of the viewer registry map equals the reported viewer count,
for all sequences of join/leave/error events: after any nonempty prefix of any
event sequence, `viewerConnections.length = viewerCount`. -/
theorem registry_size_eq_viewerCount (s : PresenterState) (es : List RegistryEvent)
    (i : Nat) (hi : i < es.length) :
    (runRegistry (es.take (i + 1)) s).viewerConnections.length
      = (runRegistry (es.take (i + 1)) s).viewerCount := by
  have htake : es.take (i + 1) = es.take i ++ [es.get ⟨i, hi⟩] := by
    rw [List.take_succ, List.getElem?_eq_getElem hi]
    simp [List.get_eq_getElem]
  rw [htake]
  unfold runRegistry
  rw [List.foldl_append]
  exact stepRegistry_inv _ _

/-- Witness for C1: a concrete join/leave sequence, checked after its second
event. -/
theorem registry_size_eq_viewerCount_witness :
    1 < ([RegistryEvent.connOpen "viewer-room1-abc" 1,
          RegistryEvent.connClose "viewer-room1-abc" 2] : List RegistryEvent).length ∧
    (runRegistry (([RegistryEvent.connOpen "viewer-room1-abc" 1,
          RegistryEvent.connClose "viewer-room1-abc" 2] : List RegistryEvent).take (1 + 1))
        initialPresenterState).viewerConnections.length
      = (runRegistry (([RegistryEvent.connOpen "viewer-room1-abc" 1,
          RegistryEvent.connClose "viewer-room1-abc" 2] : List RegistryEvent).take (1 + 1))
        initialPresenterState).viewerCount :=
  ⟨by decide,
   registry_size_eq_viewerCount initialPresenterState
     [RegistryEvent.connOpen "viewer-room1-abc" 1,
      RegistryEvent.connClose "viewer-room1-abc" 2] 1 (by decide)⟩

/-- C10: `stopSharing` (also reached through the browser-triggered
`videoTrack.onended`, which is the same function) closes all media links and
stops and clears the outbound stream, but leaves the viewer registry, the
viewer count, the presenter-mute set, and the inbound audio set unchanged; the
status becomes `ready` unless it is `error`, in which case it is unchanged. -/
theorem stopSharing_spec (s : PresenterState) :
    (stopSharing s).viewerConnections = s.viewerConnections ∧
    (stopSharing s).viewerCount = s.viewerCount ∧
    (stopSharing s).mutedViewers = s.mutedViewers ∧
    (stopSharing s).viewerAudioStreams = s.viewerAudioStreams ∧
    (stopSharing s).streamRef = none ∧
    (stopSharing s).audioTrackRef = none ∧
    (stopSharing s).closedMediaCalls = s.closedMediaCalls ++ s.viewerMediaCalls ∧
    (stopSharing s).viewerMediaCalls = [] ∧
    (stopSharing s).isSharing = false ∧
    handleVideoTrackEnded s = stopSharing s ∧
    (s.status ≠ PresenterStatus.error → (stopSharing s).status = PresenterStatus.ready) ∧
    (s.status = PresenterStatus.error → (stopSharing s).status = s.status) := by
  refine ⟨rfl, rfl, rfl, rfl, rfl, rfl, rfl, rfl, rfl, rfl, ?_, ?_⟩
  · intro h
    simp [stopSharing, h]
  · intro h
    simp [stopSharing, h]

/-- Witness for C10 at a concrete sharing state. -/
theorem stopSharing_spec_witness :
    (stopSharing { initialPresenterState with
        status := PresenterStatus.sharing, isSharing := true,
        viewerMediaCalls := ["viewer-room1-abc"],
        streamRef := some { hasAudio := true } }).viewerConnections =
      ({ initialPresenterState with
        status := PresenterStatus.sharing, isSharing := true,
        viewerMediaCalls := ["viewer-room1-abc"],
        streamRef := some { hasAudio := true } } : PresenterState).viewerConnections ∧
    (stopSharing { initialPresenterState with
        status := PresenterStatus.sharing, isSharing := true,
        viewerMediaCalls := ["viewer-room1-abc"],
        streamRef := some { hasAudio := true } }).status = PresenterStatus.ready :=
  ⟨(stopSharing_spec _).1,
   (stopSharing_spec { initialPresenterState with
        status := PresenterStatus.sharing, isSharing := true,
        viewerMediaCalls := ["viewer-room1-abc"],
        streamRef := some { hasAudio := true } }).2.2.2.2.2.2.2.2.2.2.1 (by decide)⟩

/-- C8: the activity log keeps at most the 5 most recent events with the
oldest dropped first (`slice(-4)` then append); each recorded event schedules
its own removal 5 time units (of 1000 ms) after its timestamp; and the
removal timer filters by the recorded timestamp, so an event with a different
timestamp is never removed by another event's timer. -/
theorem activityLog_spec (s : PresenterState) (kind : ActKind) (id : String)
    (t key : Nat) :
    ((addViewerActivity kind id t s).recentActivity.length ≤ 5) ∧
    ((addViewerActivity kind id t s).recentActivity =
      s.recentActivity.drop (s.recentActivity.length - 4) ++
        [{ kind := kind, viewerId := shortViewerId id, timestamp := t }]) ∧
    ((addViewerActivity kind id t s).scheduledRemovals =
      s.scheduledRemovals ++ [(t + 5 * 1000, t)]) ∧
    (∀ a ∈ s.recentActivity, a.timestamp ≠ key →
      a ∈ (expireActivity key s).recentActivity) ∧
    (∀ a ∈ (expireActivity key s).recentActivity, a.timestamp ≠ key) := by
  refine ⟨?_, rfl, ?_, ?_, ?_⟩
  · simp only [addViewerActivity, List.length_append, List.length_drop,
      List.length_cons, List.length_nil]
    omega
  · simp [addViewerActivity, activityDelayMs]
  · intro a ha hne
    simp only [expireActivity, List.mem_filter, decide_eq_true_eq]
    exact ⟨ha, hne⟩
  · intro a ha
    simp only [expireActivity, List.mem_filter, decide_eq_true_eq] at ha
    exact ha.2

/-- Witness for C8 at a concrete log of two quick-succession events: the
first event's timer leaves the second event in place. -/
theorem activityLog_spec_witness :
    ((addViewerActivity ActKind.join "viewer-room1-abc" 7
        { initialPresenterState with
          recentActivity := [{ kind := ActKind.join, viewerId := "a", timestamp := 6 }] }).recentActivity.length ≤ 5) ∧
    (∀ a ∈ ({ initialPresenterState with
          recentActivity := [{ kind := ActKind.join, viewerId := "a", timestamp := 6 }] } : PresenterState).recentActivity,
      a.timestamp ≠ 7 →
      a ∈ (expireActivity 7 { initialPresenterState with
          recentActivity := [{ kind := ActKind.join, viewerId := "a", timestamp := 6 }] }).recentActivity) :=
  ⟨(activityLog_spec _ ActKind.join "viewer-room1-abc" 7 7).1,
   (activityLog_spec { initialPresenterState with
          recentActivity := [{ kind := ActKind.join, viewerId := "a", timestamp := 6 }] }
      ActKind.join "viewer-room1-abc" 7 7).2.2.2.1⟩

lemma mapGet_mapSet_self {α : Type} (k : String) (v : α) (l : List (String × α)) :
    mapGet k (mapSet k v l) = some v := by
  induction l with
  | nil => simp [mapGet, mapSet]
  | cons p rest ih =>
      by_cases h : p.1 = k
      · simp [mapGet, mapSet, h]
      · simp [mapGet, mapSet, h, ih]

lemma mapGet_mapDelete_self {α : Type} (k : String) (l : List (String × α)) :
    mapGet k (mapDelete k l) = none := by
  induction l with
  | nil => simp [mapGet, mapDelete]
  | cons p rest ih =>
      by_cases h : p.1 = k
      · simpa [mapDelete, List.filter_cons, h] using ih
      · simpa [mapDelete, List.filter_cons, h, mapGet] using ih

lemma mapDelete_of_not_mem {α : Type} (k : String) (l : List (String × α))
    (h : k ∉ l.map Prod.fst) : mapDelete k l = l := by
  unfold mapDelete
  apply List.filter_eq_self.mpr
  intro a ha
  simp only [decide_eq_true_eq]
  intro hc
  exact h (hc ▸ List.mem_map_of_mem Prod.fst ha)

lemma mapGet_isSome_length_pos {α : Type} (k : String) (l : List (String × α))
    (h : (mapGet k l).isSome) : 0 < l.length := by
  cases l with
  | nil => simp [mapGet] at h
  | cons p rest => simp

lemma mapDelete_length_of_mem {α : Type} (k : String) (l : List (String × α))
    (hnd : (l.map Prod.fst).Nodup) (hmem : (mapGet k l).isSome) :
    (mapDelete k l).length = l.length - 1 := by
  induction l with
  | nil => simp [mapGet] at hmem
  | cons p rest ih =>
      simp only [List.map_cons, List.nodup_cons] at hnd
      by_cases h : p.1 = k
      · have hk : k ∉ rest.map Prod.fst := h ▸ hnd.1
        have hrest : mapDelete k rest = rest := mapDelete_of_not_mem k rest hk
        have hcons : mapDelete k (p :: rest) = mapDelete k rest := by
          simp [mapDelete, List.filter_cons, h]
        rw [hcons, hrest]
        simp
      · have hmem' : (mapGet k rest).isSome := by
          simpa [mapGet, h] using hmem
        have hpos := mapGet_isSome_length_pos k rest hmem'
        have hrec := ih hnd.2 hmem'
        have hcons : mapDelete k (p :: rest) = p :: mapDelete k rest := by
          simp [mapDelete, List.filter_cons, h]
        rw [hcons]
        simp only [List.length_cons, hrec]
        omega

lemma foldl_callViewer_attempts (l : List (String × ViewerInfo))
    (st : OutboundStream) (s : PresenterState) :
    (l.foldl (fun acc p => callViewer p.1 st acc) s).mediaCallAttempts
      = s.mediaCallAttempts ++ l.map Prod.fst := by
  induction l generalizing s with
  | nil => simp
  | cons p rest ih =>
      rw [List.foldl_cons, ih]
      simp [callViewer]

lemma foldl_callViewer_frame (l : List (String × ViewerInfo))
    (st : OutboundStream) (s : PresenterState) :
    (l.foldl (fun acc p => callViewer p.1 st acc) s).status = s.status ∧
    (l.foldl (fun acc p => callViewer p.1 st acc) s).isSharing = s.isSharing ∧
    (l.foldl (fun acc p => callViewer p.1 st acc) s).streamRef = s.streamRef ∧
    (l.foldl (fun acc p => callViewer p.1 st acc) s).errMsg = s.errMsg ∧
    (l.foldl (fun acc p => callViewer p.1 st acc) s).viewerConnections
      = s.viewerConnections := by
  induction l generalizing s with
  | nil => exact ⟨rfl, rfl, rfl, rfl, rfl⟩
  | cons p rest ih => simpa [callViewer] using ih (callViewer p.1 st s)

/-- C3: with N viewers registered before sharing begins, a successful
`startSharing` produces exactly N media-link attempts, one per registered
viewer, none duplicated; with an empty registry the status transitions
`ready → sharing` with zero media-link attempts. -/
theorem startSharing_fanout (s : PresenterState) (micGranted : Bool)
    (hready : s.status = PresenterStatus.ready)
    (hnd : (s.viewerConnections.map Prod.fst).Nodup) :
    (s.status = PresenterStatus.ready) ∧
    ((startSharing true micGranted s).mediaCallAttempts.drop
        s.mediaCallAttempts.length = s.viewerConnections.map Prod.fst) ∧
    ((startSharing true micGranted s).mediaCallAttempts.drop
        s.mediaCallAttempts.length).Nodup ∧
    ((startSharing true micGranted s).mediaCallAttempts.length =
      s.mediaCallAttempts.length + s.viewerConnections.length) ∧
    ((startSharing true micGranted s).status = PresenterStatus.sharing) ∧
    (s.viewerConnections = [] →
      (startSharing true micGranted s).mediaCallAttempts = s.mediaCallAttempts) := by
  have hatt : (startSharing true micGranted s).mediaCallAttempts =
      s.mediaCallAttempts ++ s.viewerConnections.map Prod.fst := by
    simp only [startSharing, if_pos]
    exact foldl_callViewer_attempts _ _ _
  have hdrop : (startSharing true micGranted s).mediaCallAttempts.drop
      s.mediaCallAttempts.length = s.viewerConnections.map Prod.fst := by
    rw [hatt, List.drop_left]
  refine ⟨hready, hdrop, ?_, ?_, ?_, ?_⟩
  · rw [hdrop]; exact hnd
  · rw [hatt]; simp
  · simp only [startSharing, if_pos]
    exact (foldl_callViewer_frame _ _ _).1
  · intro hempty
    rw [hatt, hempty]
    simp

/-- Witness for C3 at the concrete two-viewer ready state. -/
theorem startSharing_fanout_witness :
    ((startSharing true true exTwoViewers).mediaCallAttempts.drop
        exTwoViewers.mediaCallAttempts.length =
      exTwoViewers.viewerConnections.map Prod.fst) ∧
    ((startSharing true true exTwoViewers).mediaCallAttempts.length =
      exTwoViewers.mediaCallAttempts.length + exTwoViewers.viewerConnections.length) ∧
    ((startSharing true true exTwoViewers).status = PresenterStatus.sharing) :=
  ⟨(startSharing_fanout exTwoViewers true (by decide) (by decide)).2.1,
   (startSharing_fanout exTwoViewers true (by decide) (by decide)).2.2.2.1,
   (startSharing_fanout exTwoViewers true (by decide) (by decide)).2.2.2.2.1⟩

/-- C4: a viewer whose control link opens while sharing is active (a stream
exists and `isSharing` is set) is registered and receives its media-link
attempt within the same `open`-event handler, with no broadcast call. -/
theorem lateJoin_called_immediately (s : PresenterState) (id : String) (now : Nat)
    (st : OutboundStream) (hsh : s.isSharing = true) (hstream : s.streamRef = some st) :
    ((handleConnOpen id now s).mediaCallAttempts = s.mediaCallAttempts ++ [id]) ∧
    (mapGet id (handleConnOpen id now s).viewerConnections =
      some { connOpen := true, isMutedByPresenter := false }) := by
  simp only [handleConnOpen, addViewerActivity, hstream, hsh]
  constructor
  · simp [callViewer]
  · simp [callViewer, mapGet_mapSet_self]

/-- Witness for C4: a viewer joining the concrete sharing-active state is
called at once. -/
theorem lateJoin_called_immediately_witness :
    ((handleConnOpen exViewerId2 9 exState).mediaCallAttempts =
      exState.mediaCallAttempts ++ [exViewerId2]) ∧
    (mapGet exViewerId2 (handleConnOpen exViewerId2 9 exState).viewerConnections =
      some { connOpen := true, isMutedByPresenter := false }) :=
  ⟨(lateJoin_called_immediately exState exViewerId2 9 { hasAudio := true }
      (by decide) (by decide)).1,
   (lateJoin_called_immediately exState exViewerId2 9 { hasAudio := true }
      (by decide) (by decide)).2⟩

/-- C7: with the session ready and not sharing, microphone denial is
non-fatal — `startSharing` still enters `sharing` with a video-only outbound
stream — while video denial or absence only sets the error message, leaving
the status at `ready`, sharing off, and the stream untouched. -/
theorem startSharing_media_errors (s : PresenterState)
    (hready : s.status = PresenterStatus.ready) (hns : s.isSharing = false) :
    ((startSharing true false s).status = PresenterStatus.sharing) ∧
    ((startSharing true false s).isSharing = true) ∧
    ((startSharing true false s).streamRef = some { hasAudio := false }) ∧
    (∀ micGranted : Bool,
      (startSharing false micGranted s).status = PresenterStatus.ready ∧
      (startSharing false micGranted s).isSharing = false ∧
      (startSharing false micGranted s).streamRef = s.streamRef ∧
      (startSharing false micGranted s).errMsg =
        some "Failed to start screen sharing. Please allow screen access.") := by
  refine ⟨?_, ?_, ?_, ?_⟩
  · simp only [startSharing, if_pos]
    exact (foldl_callViewer_frame _ _ _).1
  · simp only [startSharing, if_pos]
    exact (foldl_callViewer_frame _ _ _).2.1
  · simp only [startSharing, if_pos]
    exact (foldl_callViewer_frame _ _ _).2.2.1
  · intro micGranted
    refine ⟨?_, ?_, ?_, ?_⟩ <;> simp [startSharing, hready, hns]

/-- Witness for C7 at the concrete two-viewer ready state. -/
theorem startSharing_media_errors_witness :
    ((startSharing true false exTwoViewers).status = PresenterStatus.sharing) ∧
    ((startSharing false true exTwoViewers).status = PresenterStatus.ready) ∧
    ((startSharing false true exTwoViewers).errMsg =
      some "Failed to start screen sharing. Please allow screen access.") :=
  ⟨(startSharing_media_errors exTwoViewers (by decide) (by decide)).1,
   ((startSharing_media_errors exTwoViewers (by decide) (by decide)).2.2.2 true).1,
   ((startSharing_media_errors exTwoViewers (by decide) (by decide)).2.2.2 true).2.2.2⟩

/-- C5: `endMeeting` sends `meeting-ended` to every registered viewer (all of
whose control links are open, which holds in every reachable state since
registration happens on the `open` event), then closes every media call and
every data connection, closes the mixer's audio context, and clears the
outbound stream; afterwards the registry is empty, the viewer count is zero,
and the status is `ready`. -/
theorem endMeeting_spec (s : PresenterState)
    (hopen : ∀ p ∈ s.viewerConnections, p.2.connOpen = true) :
    ((endMeeting s).sentMessages = s.sentMessages ++
      s.viewerConnections.map
        (fun p => (p.1, { type := MsgType.meetingEnded, viewerId := none }))) ∧
    ((endMeeting s).closedMediaCalls = s.closedMediaCalls ++ s.viewerMediaCalls) ∧
    ((endMeeting s).viewerMediaCalls = []) ∧
    ((endMeeting s).closedControlLinks =
      s.closedControlLinks ++ s.viewerConnections.map Prod.fst) ∧
    ((endMeeting s).viewerConnections = []) ∧
    ((endMeeting s).audioContextOpen = false) ∧
    ((endMeeting s).streamRef = none) ∧
    ((endMeeting s).audioTrackRef = none) ∧
    ((endMeeting s).viewerCount = 0) ∧
    ((endMeeting s).status = PresenterStatus.ready) := by
  have hfil : s.viewerConnections.filter (fun p => p.2.connOpen) = s.viewerConnections :=
    List.filter_eq_self.mpr hopen
  refine ⟨?_, rfl, rfl, rfl, rfl, rfl, rfl, rfl, rfl, rfl⟩
  simp [endMeeting, broadcastToViewers, hfil]

/-- Witness for C5: ending the meeting from the concrete two-viewer state
delivers `meeting-ended` to both viewers and resets the session. -/
theorem endMeeting_spec_witness :
    ((endMeeting exTwoViewers).sentMessages = exTwoViewers.sentMessages ++
      exTwoViewers.viewerConnections.map
        (fun p => (p.1, { type := MsgType.meetingEnded, viewerId := none }))) ∧
    ((endMeeting exTwoViewers).viewerConnections = []) ∧
    ((endMeeting exTwoViewers).status = PresenterStatus.ready) :=
  ⟨(endMeeting_spec exTwoViewers (by decide)).1,
   (endMeeting_spec exTwoViewers (by decide)).2.2.2.2.1,
   (endMeeting_spec exTwoViewers (by decide)).2.2.2.2.2.2.2.2.2⟩

/-- C6: the mix rebuild publishes a fresh summation of exactly the
currently-tracked inbound streams (a function of the current set only, never
an edit of the prior graph); with viewers A and B both contributing, closing
B's audio call rebuilds the output to contain only A's stream, and closing A's
as well yields the empty (silent) mix. -/
theorem mixer_rebuild_fresh (s : PresenterState) (va vb sa sb : String)
    (hne : va ≠ vb) (hstreams : s.viewerAudioStreams = [(va, sa), (vb, sb)]) :
    (∀ t : PresenterState,
      (updateViewerAudioMix t).mixOutput = some (t.viewerAudioStreams.map Prod.snd) ∧
      (updateViewerAudioMix t).rebuildCount = t.rebuildCount + 1) ∧
    ((handleCallClose vb s).mixOutput = some [sa]) ∧
    ((handleCallClose vb s).rebuildCount = s.rebuildCount + 1) ∧
    ((handleCallClose va (handleCallClose vb s)).mixOutput = some []) := by
  refine ⟨fun t => ⟨rfl, rfl⟩, ?_, rfl, ?_⟩
  · simp [handleCallClose, updateViewerAudioMix, mapDelete, hstreams,
      List.filter_cons, hne]
  · simp [handleCallClose, updateViewerAudioMix, mapDelete, hstreams,
      List.filter_cons, hne]

lemma messagesFor_append (id : String) (l1 l2 : List (String × DataMessage)) :
    messagesFor id (l1 ++ l2) = messagesFor id l1 ++ messagesFor id l2 := by
  simp [messagesFor, List.filter_append]

lemma applyAllMessages_append (ms1 ms2 : List DataMessage) (v : ViewerSideState) :
    applyAllMessages (ms1 ++ ms2) v = applyAllMessages ms2 (applyAllMessages ms1 v) := by
  simp [applyAllMessages, List.foldl_append]

lemma applyUnmuted_idem (id : String) (v : ViewerSideState) :
    applyDataMessage { type := MsgType.viewerUnmuted, viewerId := some id }
      (applyDataMessage { type := MsgType.viewerUnmuted, viewerId := some id } v) =
    applyDataMessage { type := MsgType.viewerUnmuted, viewerId := some id } v := by
  unfold applyDataMessage
  cases hb : v.hasMicStream && v.isMicEnabled && !v.isMicMuted <;> simp [hb]

lemma mapGet_setMuteFlag_self (id : String) (b : Bool) (l : List (String × ViewerInfo)) :
    mapGet id (setMuteFlag id b l) =
      (mapGet id l).map (fun i => { i with isMutedByPresenter := b }) := by
  induction l with
  | nil => simp [mapGet, setMuteFlag]
  | cons p rest ih =>
      by_cases h : p.1 = id
      · simp [mapGet, setMuteFlag, h]
      · simp only [setMuteFlag, List.map_cons] at ih ⊢
        simp [mapGet, h, ih]

lemma setMuteFlag_setMuteFlag (id : String) (b : Bool) (l : List (String × ViewerInfo)) :
    setMuteFlag id b (setMuteFlag id b l) = setMuteFlag id b l := by
  induction l with
  | nil => rfl
  | cons p rest ih =>
      simp only [setMuteFlag, List.map_cons] at ih ⊢
      by_cases h : p.1 = id <;> simp [h, ih]

lemma setDelete_idem (x : String) (l : List String) :
    setDelete x (setDelete x l) = setDelete x l := by
  simp [setDelete, List.filter_filter]

lemma unmuteViewer_connections (id : String) (s : PresenterState) :
    (unmuteViewer id s).viewerConnections = setMuteFlag id false s.viewerConnections := by
  unfold unmuteViewer sendToViewer
  cases h : mapGet id s.viewerConnections with
  | none => rfl
  | some info => by_cases ho : info.connOpen <;> simp [ho]

lemma unmuteViewer_muted (id : String) (s : PresenterState) :
    (unmuteViewer id s).mutedViewers = setDelete id s.mutedViewers := by
  unfold unmuteViewer sendToViewer
  cases h : mapGet id s.viewerConnections with
  | none => rfl
  | some info => by_cases ho : info.connOpen <;> simp [ho]

lemma unmuteViewer_sent_open (id : String) (s : PresenterState) (info : ViewerInfo)
    (h : mapGet id s.viewerConnections = some info) (ho : info.connOpen = true) :
    (unmuteViewer id s).sentMessages = s.sentMessages ++
      [(id, { type := MsgType.viewerUnmuted, viewerId := some id })] := by
  unfold unmuteViewer sendToViewer
  simp [h, ho]

lemma unmuteViewer_sent_none (id : String) (s : PresenterState)
    (h : mapGet id s.viewerConnections = none) :
    (unmuteViewer id s).sentMessages = s.sentMessages := by
  unfold unmuteViewer sendToViewer
  simp [h]

lemma unmuteViewer_sent_closed (id : String) (s : PresenterState) (info : ViewerInfo)
    (h : mapGet id s.viewerConnections = some info) (ho : info.connOpen = false) :
    (unmuteViewer id s).sentMessages = s.sentMessages := by
  unfold unmuteViewer sendToViewer
  simp [h, ho]

/-- C9: `unmuteViewer(id)` is idempotent — a second call leaves the viewer's
registry record (and the whole registry), the muted-viewers set, and the
effect of the sent messages on the viewer's state identical to one call. -/
theorem unmuteViewer_idempotent (s : PresenterState) (id : String) (v : ViewerSideState) :
    ((unmuteViewer id (unmuteViewer id s)).viewerConnections =
      (unmuteViewer id s).viewerConnections) ∧
    ((unmuteViewer id (unmuteViewer id s)).mutedViewers =
      (unmuteViewer id s).mutedViewers) ∧
    (applyAllMessages (messagesFor id (unmuteViewer id (unmuteViewer id s)).sentMessages) v =
      applyAllMessages (messagesFor id (unmuteViewer id s).sentMessages) v) := by
  refine ⟨?_, ?_, ?_⟩
  · rw [unmuteViewer_connections id (unmuteViewer id s), unmuteViewer_connections id s,
      setMuteFlag_setMuteFlag]
  · rw [unmuteViewer_muted id (unmuteViewer id s), unmuteViewer_muted id s,
      setDelete_idem]
  · cases h : mapGet id s.viewerConnections with
    | none =>
        have h1 : mapGet id (unmuteViewer id s).viewerConnections = none := by
          rw [unmuteViewer_connections, mapGet_setMuteFlag_self, h]
          rfl
        rw [unmuteViewer_sent_none id (unmuteViewer id s) h1]
    | some info =>
        have h1 : mapGet id (unmuteViewer id s).viewerConnections =
            some { info with isMutedByPresenter := false } := by
          rw [unmuteViewer_connections, mapGet_setMuteFlag_self, h]
          rfl
        cases ho : info.connOpen with
        | false =>
            rw [unmuteViewer_sent_closed id (unmuteViewer id s)
              { info with isMutedByPresenter := false } h1 (by simpa using ho)]
        | true =>
            rw [unmuteViewer_sent_open id (unmuteViewer id s)
                { info with isMutedByPresenter := false } h1 (by simpa using ho),
              unmuteViewer_sent_open id s info h ho,
              messagesFor_append, messagesFor_append, applyAllMessages_append,
              applyAllMessages_append]
            simp [messagesFor, applyAllMessages, applyUnmuted_idem]

/-- Counterexample to C2 as stated: at a concrete state with one registered
viewer holding a media call and a mixed inbound audio stream, the control-link
close handler performs no `call.close()` (the close log stays empty, so the
media link is dropped but not closed), triggers no mixer recompute (the
rebuild count is unchanged and the published mix still contains the removed
viewer's stream), and the error handler emits no `leave` activity event. -/
theorem controlLinkClose_counterexample :
    ((handleConnClose exViewerId 42 exState).closedMediaCalls = []) ∧
    ((handleConnClose exViewerId 42 exState).rebuildCount = exState.rebuildCount) ∧
    ((handleConnClose exViewerId 42 exState).mixOutput = some [exStreamId]) ∧
    ((handleConnError exViewerId exState).recentActivity = []) := by
  refine ⟨?_, ?_, ?_, ?_⟩ <;> decide

/-- C2 (amended): when a registered viewer's control link closes, the handler
removes the registry record, drops the media-call handle without invoking
`call.close()`, removes the inbound audio entry without triggering a mixer
recompute (count and published mix unchanged), clears the mute state,
decrements the viewer count, and emits a `leave` ActivityEvent; the error
handler does the same except that it emits no activity event. -/
theorem controlLinkGone_spec (s : PresenterState) (id : String) (now : Nat)
    (hnd : (s.viewerConnections.map Prod.fst).Nodup)
    (hmem : (mapGet id s.viewerConnections).isSome) :
    (mapGet id (handleConnClose id now s).viewerConnections = none) ∧
    ((handleConnClose id now s).viewerMediaCalls = setDelete id s.viewerMediaCalls) ∧
    ((handleConnClose id now s).closedMediaCalls = s.closedMediaCalls) ∧
    (mapGet id (handleConnClose id now s).viewerAudioStreams = none) ∧
    ((handleConnClose id now s).rebuildCount = s.rebuildCount) ∧
    ((handleConnClose id now s).mixOutput = s.mixOutput) ∧
    ((handleConnClose id now s).mutedViewers = setDelete id s.mutedViewers) ∧
    ((handleConnClose id now s).viewerCount = s.viewerConnections.length - 1) ∧
    ((handleConnClose id now s).recentActivity.getLast? =
      some { kind := ActKind.leave, viewerId := shortViewerId id, timestamp := now }) ∧
    (mapGet id (handleConnError id s).viewerConnections = none) ∧
    ((handleConnError id s).viewerCount = s.viewerConnections.length - 1) ∧
    ((handleConnError id s).recentActivity = s.recentActivity) := by
  refine ⟨?_, rfl, rfl, ?_, rfl, rfl, rfl, ?_, ?_, ?_, ?_, rfl⟩
  · simpa [handleConnClose, addViewerActivity] using
      mapGet_mapDelete_self id s.viewerConnections
  · simpa [handleConnClose, addViewerActivity] using
      mapGet_mapDelete_self id s.viewerAudioStreams
  · simpa [handleConnClose, addViewerActivity] using
      mapDelete_length_of_mem id s.viewerConnections hnd hmem
  · simp [handleConnClose, addViewerActivity, List.getLast?_concat]
  · simpa [handleConnError] using mapGet_mapDelete_self id s.viewerConnections
  · simpa [handleConnError] using
      mapDelete_length_of_mem id s.viewerConnections hnd hmem

/-- Witness for the amended C2 at the concrete one-viewer state. -/
theorem controlLinkGone_spec_witness :
    ((exState.viewerConnections.map Prod.fst).Nodup) ∧
    ((mapGet exViewerId exState.viewerConnections).isSome) ∧
    (mapGet exViewerId (handleConnClose exViewerId 42 exState).viewerConnections = none) ∧
    ((handleConnClose exViewerId 42 exState).viewerCount =
      exState.viewerConnections.length - 1) :=
  ⟨by decide, by decide,
   (controlLinkGone_spec exState exViewerId 42 (by decide) (by decide)).1,
   (controlLinkGone_spec exState exViewerId 42 (by decide) (by decide)).2.2.2.2.2.2.2.1⟩

/-- Witness for C6 at a concrete two-contributor state. -/
theorem mixer_rebuild_fresh_witness :
    (("viewer-room1-abc" : String) ≠ "viewer-room1-xyz") ∧
    ((handleCallClose "viewer-room1-xyz"
        { exState with viewerAudioStreams :=
            [("viewer-room1-abc", "stream-abc"),
             ("viewer-room1-xyz", "stream-xyz")] }).mixOutput = some ["stream-abc"]) ∧
    ((handleCallClose "viewer-room1-abc" (handleCallClose "viewer-room1-xyz"
        { exState with viewerAudioStreams :=
            [("viewer-room1-abc", "stream-abc"),
             ("viewer-room1-xyz", "stream-xyz")] })).mixOutput = some []) :=
  ⟨by decide,
   (mixer_rebuild_fresh
      { exState with viewerAudioStreams :=
          [("viewer-room1-abc", "stream-abc"),
           ("viewer-room1-xyz", "stream-xyz")] }
      "viewer-room1-abc" "viewer-room1-xyz" "stream-abc" "stream-xyz"
      (by decide) rfl).2.1,
   (mixer_rebuild_fresh
      { exState with viewerAudioStreams :=
          [("viewer-room1-abc", "stream-abc"),
           ("viewer-room1-xyz", "stream-xyz")] }
      "viewer-room1-abc" "viewer-room1-xyz" "stream-abc" "stream-xyz"
      (by decide) rfl).2.2.2⟩
